import Mathlib

/-!
Verification of `towebp_english.py` (AnimatedWebP repository).

The program reads a directory of PNG files, assembles them into an animated
WebP (via PIL `Image.save`) or an APNG (via the `apng` library), driven by a
Qt GUI that validates the parameters.  We embed the pure decision logic:

* `create_webp` / `create_apng` — the conversion functions, modelled up to
  the library save call: they return the exact parameter record handed to
  the imaging library, or the `FileNotFoundError` message they raise.
* `ConversionThread.run` — modelled as `runThread`, returning the list of
  `conversion_finished` signal emissions.
* `WebPConverterApp.convert_images` — the validation logic, over a state
  record holding the text of each input widget.
* `WebPConverterApp.toggle_format` — the UI show/hide toggling.

A directory is modelled as the list of its entry names; a file path as a
string.  Python `int(s)` (base 10, ASCII) is modelled by `pyIntParse`;
`str.strip` by `pyStrip` (ASCII whitespace); `sorted` on strings by
`List.insertionSort strLe`, a stable sort for the lexicographic
code-point order, which is the string order Python uses and yields the
same sorted result.
-/

namespace AnimatedWebP

/-- Model of Python `str.strip()` with no argument: drop whitespace from both
ends (ASCII whitespace; Python also strips some further Unicode spaces, which
no claim depends on). -/
def pyStrip (s : String) : String :=
  ⟨(((s.data.dropWhile Char.isWhitespace).reverse.dropWhile Char.isWhitespace).reverse)⟩

/-- Model of Python `str.endswith(suffix)`. -/
def pyEndsWith (s suffix : String) : Bool :=
  suffix.data.isSuffixOf s.data

/-- True when the name starts with a dot; `glob` never matches hidden files. -/
def pyHiddenName (name : String) : Bool :=
  match name.data with
  | '.' :: _ => true
  | _ => false

/-- Digit run of a Python base-10 integer literal after the first digit:
digits, with single underscores allowed between digits. `acc` is the value of
the digits already consumed. -/
def parseDigitsAux : List Char → Nat → Option Nat
  | [], acc => some acc
  | c :: cs, acc =>
    if c.isDigit then parseDigitsAux cs (acc * 10 + (c.toNat - 48))
    else if c = '_' then
      match cs with
      | c2 :: cs2 =>
        if c2.isDigit then parseDigitsAux cs2 (acc * 10 + (c2.toNat - 48)) else none
      | [] => none
    else none

/-- Digit run of a Python base-10 integer literal: at least one digit, single
underscores allowed between digits, nothing else. -/
def parseDigits : List Char → Option Nat
  | [] => none
  | c :: cs => if c.isDigit then parseDigitsAux cs (c.toNat - 48) else none

/-- Model of Python `int(s)` for base 10: strip surrounding whitespace, an
optional sign, then an ASCII digit run; `none` models the `ValueError`. -/
def pyIntParse (s : String) : Option Int :=
  match (pyStrip s).data with
  | '+' :: rest => (parseDigits rest).map Int.ofNat
  | '-' :: rest => (parseDigits rest).map (fun n => -(Int.ofNat n : Int))
  | rest => (parseDigits rest).map Int.ofNat

/-- Whether a directory entry is matched by the glob pattern `*.png`:
its name ends with `.png` and it is not a hidden file. -/
def matchesPngGlob (name : String) : Bool :=
  pyEndsWith name ".png" && !(pyHiddenName name)

/-- Model of `glob.glob(os.path.join(input_folder, "*.png"))`: the matching
entries of the folder, each joined to the folder path.  `glob` returns them
in unspecified filesystem order; the program always sorts the result, so the
entry order of the folder list stands in for it. -/
def globPngJoined (dir : String) (fs : List String) : List String :=
  (fs.filter matchesPngGlob).map (fun n => dir ++ "/" ++ n)

/-- Lexicographic code-point comparison of character lists, exactly the
Python string comparison: walk the lists; at the first differing character compare
code points; a proper prefix is smaller. -/
def lexLe : List Char → List Char → Bool
  | [], _ => true
  | _ :: _, [] => false
  | a :: as, b :: bs => if a = b then lexLe as bs else decide (a < b)

/-- The Python string order `<=`: lexicographic code-point order. -/
def strLe (a b : String) : Prop := lexLe a.data b.data = true

instance : DecidableRel strLe := fun a b =>
  decidable_of_iff (lexLe a.data b.data = true) Iff.rfl

/-- Model of Python `sorted` on a list of strings: a stable sort for the
lexicographic code-point order, which is what `sorted` performs. -/
def pySorted (l : List String) : List String :=
  List.insertionSort strLe l

/-- The list `sorted(glob.glob(os.path.join(input_folder, "*.png")))` that
both conversion functions build. -/
def sortedPng (dir : String) (fs : List String) : List String :=
  pySorted (globPngJoined dir fs)

/-- The `FileNotFoundError` message raised when the folder has no PNG files. -/
def noPngError (dir : String) : String :=
  "No PNG files found, please check the " ++ dir ++ " folder."

/-- The save call `images[0].save(output_file, **save_params)` issued by
`create_webp`: `frames` lists the frame paths in order (the image the save is
called on, then `append_images`); `quality` is present only when the code put
it into `save_params`. -/
structure WebpSave where
  output : String
  frames : List String
  duration : Nat
  loop : Nat
  lossless : Bool
  quality : Option Int
  save_all : Bool
  fmt : String
deriving Repr, DecidableEq

/-- Embedding of `create_webp(output_file, input_folder, delay, quality,
lossless)`.  `fs` is the entry listing of `input_folder`.  Returns the save
call issued, or the message of the `FileNotFoundError` raised when the sorted
glob is empty.  Frame delays from the GUI are nonnegative, so `delay : Nat`;
the per-frame `img.info["duration"]` assignment is subsumed by the `duration`
save parameter. -/
def create_webp (output_file dir : String) (fs : List String) (delay : Nat)
    (quality : Int) (lossless : Bool) : Except String WebpSave :=
  if (sortedPng dir fs).isEmpty then
    Except.error (noPngError dir)
  else
    Except.ok
      { output := output_file
        frames := sortedPng dir fs
        duration := delay
        loop := 0
        lossless := lossless
        quality := if lossless then none else some quality
        save_all := true
        fmt := "WEBP" }

/-- The `apng_obj.save(output_file)` call issued by `create_apng`: each frame
is a path paired with the delay (in centiseconds) passed to `append_file`. -/
structure ApngSave where
  output : String
  frames : List (String × Nat)
deriving Repr, DecidableEq

/-- Embedding of `create_apng(output_file, input_folder, delay)`.  Each frame
gets `int(delay / 10)`; for the nonnegative delays the GUI produces this is
truncating division, i.e. `Nat` division by 10 (the float quotient of such
small naturals never rounds up across an integer). -/
def create_apng (output_file dir : String) (fs : List String) (delay : Nat) :
    Except String ApngSave :=
  if (sortedPng dir fs).isEmpty then
    Except.error (noPngError dir)
  else
    Except.ok
      { output := output_file
        frames := (sortedPng dir fs).map (fun p => (p, delay / 10)) }

/-- The fields `ConversionThread.__init__` stores. -/
structure ThreadConfig where
  output_file : String
  input_folder : String
  format_type : String
  delay : Nat
  quality : Int
  lossless : Bool
deriving Repr, DecidableEq

/-- Embedding of `ConversionThread.run`, given the entry listing `fs` of the
input folder of the thread: the list of `conversion_finished` emissions, in order.
The `try` covers both conversion calls; any exception is caught and reported
as `(False, str(e))`, and a run with a `format_type` matching neither branch
falls through to the success emission. -/
def runThread (cfg : ThreadConfig) (fs : List String) : List (Bool × String) :=
  if cfg.format_type = "webp" then
    match create_webp cfg.output_file cfg.input_folder fs cfg.delay cfg.quality cfg.lossless with
    | Except.ok _ => [(true, "")]
    | Except.error e => [(false, e)]
  else if cfg.format_type = "apng" then
    match create_apng cfg.output_file cfg.input_folder fs cfg.delay with
    | Except.ok _ => [(true, "")]
    | Except.error e => [(false, e)]
  else [(true, "")]

/-- The widget state `toggle_format` reads and writes: visibility of the
quality frame and the compression section, and the output filename text. -/
structure ToggleState where
  quality_visible : Bool
  compression_visible : Bool
  output_text : String
deriving Repr, DecidableEq

/-- Embedding of `WebPConverterApp.toggle_format`; `checked` is the text of
the checked format radio button (`"WebP"` or `"APNG"`).  Size-policy and
layout-stretch updates have no bearing on any claim and are not modelled. -/
def toggle_format (checked : String) (s : ToggleState) : ToggleState :=
  if checked = "WebP" then
    { s with quality_visible := true, compression_visible := true,
             output_text := "output.webp" }
  else
    { s with quality_visible := false, compression_visible := false,
             output_text := "output.png" }

/-- The state `convert_images` reads: the selected folder (if any), the text
of the output / frame-rate / quality entries, and the texts of the checked
format and compression radio buttons. -/
structure UIState where
  input_folder : Option String
  output_text : String
  format_text : String
  compression_text : String
  delay_text : String
  quality_text : String
deriving Repr, DecidableEq

/-- Outcome of `convert_images`: either an error toast with its message and
no thread started, or a `ConversionThread` started with the given fields. -/
inductive ConvertResult where
  | toastError (msg : String) : ConvertResult
  | started (cfg : ThreadConfig) : ConvertResult
deriving Repr, DecidableEq

/-- The local `output_file = self.output_entry.text().strip()`. -/
def outputFileOf (s : UIState) : String := pyStrip s.output_text

/-- The local `format_type = "webp" if ... == "WebP" else "apng"`. -/
def formatTypeOf (s : UIState) : String :=
  if s.format_text = "WebP" then "webp" else "apng"

/-- Toast shown when no folder is selected. -/
def folderMsg : String := "Please select a folder containing PNG files first"

/-- Toast shown when the frame-rate text is rejected. -/
def fpsMsg : String := "Frame rate must be a positive integer"

/-- Toast shown when the WebP extension check fails. -/
def webpExtMsg : String := "Output file name must end with .webp"

/-- Toast shown when the APNG extension check fails. -/
def apngExtMsg : String := "Output file name must end with .png"

/-- Toast shown when the quality text is rejected. -/
def qualityMsg : String := "Image quality must be an integer between 0 and 100"

/-- Embedding of `WebPConverterApp.convert_images`.  `int(1000 / fps)` for
`fps > 0` is the floor of the true quotient (the float division of `1000` by
a positive integer never rounds up across an integer boundary), i.e. `Nat`
division; the `fps <= 0` check and the delay computation sit inside the same
`try` as `int(...)`, before the extension checks, exactly as in the source. -/
def convert_images (s : UIState) : ConvertResult :=
  match s.input_folder with
  | none => ConvertResult.toastError folderMsg
  | some folder =>
    match pyIntParse s.delay_text with
    | none => ConvertResult.toastError fpsMsg
    | some fps =>
      if fps ≤ 0 then ConvertResult.toastError fpsMsg
      else if formatTypeOf s = "webp" ∧ pyEndsWith (outputFileOf s) ".webp" = false then
        ConvertResult.toastError webpExtMsg
      else if formatTypeOf s = "apng" ∧ pyEndsWith (outputFileOf s) ".png" = false then
        ConvertResult.toastError apngExtMsg
      else if ¬ (s.compression_text = "Lossless Mode") then
        match pyIntParse s.quality_text with
        | none => ConvertResult.toastError qualityMsg
        | some quality =>
          if quality < 0 ∨ quality > 100 then
            ConvertResult.toastError qualityMsg
          else
            ConvertResult.started
              { output_file := outputFileOf s, input_folder := folder,
                format_type := formatTypeOf s, delay := 1000 / fps.toNat,
                quality := quality, lossless := false }
      else
        ConvertResult.started
          { output_file := outputFileOf s, input_folder := folder,
            format_type := formatTypeOf s, delay := 1000 / fps.toNat,
            quality := 100, lossless := true }

/-! ### Helper lemmas -/

theorem lexLe_total : ∀ as bs : List Char, lexLe as bs = true ∨ lexLe bs as = true
  | [], _ => Or.inl rfl
  | _ :: _, [] => Or.inr rfl
  | a :: as, b :: bs => by
    by_cases hab : a = b
    · subst hab
      simpa only [lexLe, if_pos rfl] using lexLe_total as bs
    · rcases lt_or_gt_of_ne hab with h | h
      · left; simp [lexLe, hab, h]
      · right; simp [lexLe, Ne.symm hab, h]

theorem lexLe_trans : ∀ as bs cs : List Char,
    lexLe as bs = true → lexLe bs cs = true → lexLe as cs = true
  | [], _, _, _, _ => rfl
  | _ :: _, [], _, h1, _ => by simp [lexLe] at h1
  | _ :: _, _ :: _, [], _, h2 => by simp [lexLe] at h2
  | a :: as, b :: bs, c :: cs, h1, h2 => by
    by_cases hab : a = b <;> by_cases hbc : b = c
    · subst hab; subst hbc
      simp only [lexLe, if_pos rfl] at h1 h2 ⊢
      exact lexLe_trans as bs cs h1 h2
    · subst hab
      simp only [lexLe, if_pos rfl, if_neg hbc] at h1 h2 ⊢
      exact h2
    · subst hbc
      simp only [lexLe, if_neg hab, if_pos rfl] at h1 h2 ⊢
      exact h1
    · simp only [lexLe, if_neg hab, if_neg hbc, decide_eq_true_eq] at h1 h2
      have hac : a < c := lt_trans h1 h2
      simp [lexLe, ne_of_lt hac, hac]

instance : IsTotal String strLe :=
  ⟨fun a b => lexLe_total a.data b.data⟩

instance : IsTrans String strLe :=
  ⟨fun a b c => lexLe_trans a.data b.data c.data⟩

/-- Unfolding of a successful `create_webp`. -/
theorem create_webp_ok (out dir : String) (fs : List String) (d : Nat) (q : Int)
    (l : Bool) (h : (sortedPng dir fs).isEmpty = false) :
    create_webp out dir fs d q l =
      Except.ok
        { output := out, frames := sortedPng dir fs, duration := d, loop := 0,
          lossless := l, quality := if l then none else some q,
          save_all := true, fmt := "WEBP" } := by
  unfold create_webp
  rw [h]
  rfl

/-- Unfolding of a successful `create_apng`. -/
theorem create_apng_ok (out dir : String) (fs : List String) (d : Nat)
    (h : (sortedPng dir fs).isEmpty = false) :
    create_apng out dir fs d =
      Except.ok
        { output := out,
          frames := (sortedPng dir fs).map (fun p => (p, d / 10)) } := by
  unfold create_apng
  rw [h]
  rfl

/-- The sorted glob listing is empty exactly when no folder entry matches
`*.png`. -/
theorem sortedPng_eq_nil_iff (dir : String) (fs : List String) :
    sortedPng dir fs = [] ↔ fs.filter matchesPngGlob = [] := by
  unfold sortedPng pySorted globPngJoined
  rw [← List.length_eq_zero, List.length_insertionSort, List.length_map,
    List.length_eq_zero]

/-! ### C1 -/

/-- C1: for every input folder with no `*.png` entry, `create_webp` and
`create_apng` raise `FileNotFoundError` (so no save call is issued and no
output is written); for every folder with at least one such entry, neither
function raises it and the save call is issued. -/
theorem c1_no_png_raises (out dir : String) (fs : List String) (d : Nat)
    (q : Int) (l : Bool) :
    (fs.filter matchesPngGlob = [] →
      create_webp out dir fs d q l = Except.error (noPngError dir) ∧
      create_apng out dir fs d = Except.error (noPngError dir)) ∧
    (fs.filter matchesPngGlob ≠ [] →
      (∃ r, create_webp out dir fs d q l = Except.ok r) ∧
      (∃ r, create_apng out dir fs d = Except.ok r)) := by
  constructor
  · intro h
    have h' : (sortedPng dir fs).isEmpty = true :=
      List.isEmpty_iff.mpr ((sortedPng_eq_nil_iff dir fs).mpr h)
    constructor
    · simp [create_webp, h']
    · simp [create_apng, h']
  · intro h
    have h' : (sortedPng dir fs).isEmpty = false := by
      rw [Bool.eq_false_iff]
      intro hc
      exact h ((sortedPng_eq_nil_iff dir fs).mp (List.isEmpty_iff.mp hc))
    exact ⟨⟨_, create_webp_ok out dir fs d q l h'⟩, ⟨_, create_apng_ok out dir fs d h'⟩⟩

/-- Witness for C1 at a concrete folder with one PNG and at an empty folder. -/
theorem c1_no_png_raises_witness :
    (["a.png"].filter matchesPngGlob ≠ [] ∧
      (∃ r, create_webp "o.webp" "input" ["a.png"] 41 80 false = Except.ok r) ∧
      (∃ r, create_apng "o.webp" "input" ["a.png"] 41 = Except.ok r)) ∧
    create_webp "o.webp" "input" [] 41 80 false =
      Except.error (noPngError "input") :=
  ⟨⟨by decide, (c1_no_png_raises "o.webp" "input" ["a.png"] 41 80 false).2 (by decide)⟩,
    ((c1_no_png_raises "o.webp" "input" [] 41 80 false).1 (by decide)).1⟩

/-! ### C6 -/

/-- C6: whenever the conversion functions succeed, the frame sequence handed
to the library is exactly the sorted listing of the `*.png` files of the folder:
it is sorted in the lexicographic string order and is a permutation of the
matching files, and frame `i` of both outputs is file `i` of that listing. -/
theorem c6_frames_sorted (out out2 dir : String) (fs : List String) (d : Nat)
    (q : Int) (l : Bool) (r : WebpSave) (r2 : ApngSave)
    (hw : create_webp out dir fs d q l = Except.ok r)
    (ha : create_apng out2 dir fs d = Except.ok r2) :
    r.frames = sortedPng dir fs ∧
    r2.frames.map Prod.fst = sortedPng dir fs ∧
    List.Sorted strLe (sortedPng dir fs) ∧
    (sortedPng dir fs).Perm ((fs.filter matchesPngGlob).map (fun n => dir ++ "/" ++ n)) := by
  refine ⟨?_, ?_, ?_, ?_⟩
  · unfold create_webp at hw
    split at hw
    · cases hw
    · cases hw; rfl
  · unfold create_apng at ha
    split at ha
    · cases ha
    · cases ha
      simp only [List.map_map]
      have hcomp : (Prod.fst ∘ fun p : String => (p, d / 10)) = id := rfl
      rw [hcomp, List.map_id]
  · exact List.sorted_insertionSort _ _
  · exact List.perm_insertionSort _ _

/-- Witness for C6 on a concrete out-of-order folder listing. -/
theorem c6_frames_sorted_witness :
    (create_webp "o.webp" "input" ["b.png", "a.png"] 41 80 false).toOption.map
        WebpSave.frames = some ["input/a.png", "input/b.png"] ∧
    ["input/a.png", "input/b.png"] = sortedPng "input" ["b.png", "a.png"] ∧
    List.Sorted strLe (sortedPng "input" ["b.png", "a.png"]) := by
  have h := c6_frames_sorted "o.webp" "o.png" "input" ["b.png", "a.png"] 41 80 false
    { output := "o.webp", frames := ["input/a.png", "input/b.png"], duration := 41,
      loop := 0, lossless := false, quality := some 80, save_all := true, fmt := "WEBP" }
    { output := "o.png", frames := [("input/a.png", 4), ("input/b.png", 4)] }
    (by rfl) (by rfl)
  exact ⟨by rfl, h.1 ▸ by rfl, h.2.2.1⟩

/-! ### C7 -/

/-- C7 fails on the code: in lossless mode `create_webp` omits the `quality`
key from the save parameters (the code sets it only when `not lossless`), so
the save call does not receive the quality.  Concretely, with `lossless =
True` and `quality = 80` the issued save call carries no quality at all. -/
theorem c7_counterexample :
    create_webp "output.webp" "input" ["a.png"] 42 80 true =
      Except.ok
        { output := "output.webp", frames := ["input/a.png"], duration := 42,
          loop := 0, lossless := true, quality := none, save_all := true,
          fmt := "WEBP" } := by
  rfl

/-- C7 amended: every successful `create_webp` hands the save call the frame
delay as `duration` and the `lossless` flag (plus `save_all` and infinite
`loop`), but the `quality` parameter only in non-lossless mode; in lossless
mode no quality is passed. -/
theorem c7_save_params (out dir : String) (fs : List String) (d : Nat)
    (q : Int) (l : Bool) (r : WebpSave)
    (hw : create_webp out dir fs d q l = Except.ok r) :
    r.duration = d ∧ r.lossless = l ∧ r.save_all = true ∧ r.loop = 0 ∧
    r.quality = (if l then none else some q) := by
  unfold create_webp at hw
  split at hw
  · cases hw
  · cases hw; exact ⟨rfl, rfl, rfl, rfl, rfl⟩

/-- Witness for C7 (amended) at a concrete lossy call. -/
theorem c7_save_params_witness :
    ({ output := "o.webp", frames := ["input/a.png"], duration := 42, loop := 0,
       lossless := false, quality := some 80, save_all := true,
       fmt := "WEBP" } : WebpSave).duration = 42 ∧
    ({ output := "o.webp", frames := ["input/a.png"], duration := 42, loop := 0,
       lossless := false, quality := some 80, save_all := true,
       fmt := "WEBP" } : WebpSave).lossless = false ∧
    ({ output := "o.webp", frames := ["input/a.png"], duration := 42, loop := 0,
       lossless := false, quality := some 80, save_all := true,
       fmt := "WEBP" } : WebpSave).save_all = true ∧
    ({ output := "o.webp", frames := ["input/a.png"], duration := 42, loop := 0,
       lossless := false, quality := some 80, save_all := true,
       fmt := "WEBP" } : WebpSave).loop = 0 ∧
    ({ output := "o.webp", frames := ["input/a.png"], duration := 42, loop := 0,
       lossless := false, quality := some 80, save_all := true,
       fmt := "WEBP" } : WebpSave).quality = (if false then none else some 80) :=
  c7_save_params "o.webp" "input" ["a.png"] 42 80 false _ (by rfl)

/-! ### C8 -/

/-- C8: `toggle_format` with APNG checked hides the quality control and the
compression section and sets the output filename to `output.png`; with WebP
checked it shows both and sets the filename to `output.webp`. -/
theorem c8_toggle_format (s : ToggleState) :
    toggle_format "APNG" s =
      { quality_visible := false, compression_visible := false,
        output_text := "output.png" } ∧
    toggle_format "WebP" s =
      { quality_visible := true, compression_visible := true,
        output_text := "output.webp" } :=
  ⟨rfl, rfl⟩

/-- Witness for C8 at a concrete widget state. -/
theorem c8_toggle_format_witness :
    toggle_format "APNG"
        { quality_visible := true, compression_visible := true,
          output_text := "output.webp" } =
      { quality_visible := false, compression_visible := false,
        output_text := "output.png" } :=
  (c8_toggle_format
    { quality_visible := true, compression_visible := true,
      output_text := "output.webp" }).1

/-! ### C10 -/

/-- C10: `create_apng` passes every frame the delay `int(delay / 10)` in
centiseconds; with the delay produced by the GUI for a frame rate `f > 0`,
namely `1000 / f` truncated, every frame delay is `(1000 / f) / 10`
centiseconds, and any `f > 1000` yields a per-frame delay of `0`. -/
theorem c10_apng_centiseconds (out dir : String) (fs : List String) (f : Nat)
    (_hf : 0 < f) (r : ApngSave)
    (h : create_apng out dir fs (1000 / f) = Except.ok r) :
    (∀ pc ∈ r.frames, pc.2 = (1000 / f) / 10) ∧
    (1000 < f → ∀ pc ∈ r.frames, pc.2 = 0) := by
  unfold create_apng at h
  split at h
  · cases h
  · cases h
    constructor
    · intro pc hpc
      simp only [List.mem_map] at hpc
      obtain ⟨p, _, rfl⟩ := hpc
      rfl
    · intro hgt pc hpc
      simp only [List.mem_map] at hpc
      obtain ⟨p, _, rfl⟩ := hpc
      simp [Nat.div_eq_of_lt hgt]

/-- Witness for C10 at `f = 24`: the delay is `trunc(trunc(1000/24)/10) = 4`
centiseconds, i.e. 40 ms rather than 41.67 ms. -/
theorem c10_apng_centiseconds_witness :
    (0 : Nat) < 24 ∧
    (∀ pc ∈ ({ output := "o.png",
               frames := [("input/a.png", 4)] } : ApngSave).frames,
       pc.2 = (1000 / 24) / 10) ∧
    ((1000 : Nat) / 24) / 10 = 4 :=
  ⟨by decide,
    (c10_apng_centiseconds "o.png" "input" ["a.png"] 24 (by decide) _ (by rfl)).1,
    by decide⟩

/-! ### C2 -/

/-- C2: every execution of `ConversionThread.run` emits `conversion_finished`
exactly once: `(True, "")` when the selected conversion function (`create_webp`
for `"webp"`, `create_apng` for `"apng"`) returns normally, `(False, str(e))`
when it raises `e`; `run` is a total function on the model and propagates no
exception. -/
theorem c2_run_emits_once (cfg : ThreadConfig) (fs : List String) :
    ∃ b e, runThread cfg fs = [(b, e)] ∧
      (cfg.format_type = "webp" →
        ((∃ r, create_webp cfg.output_file cfg.input_folder fs cfg.delay
            cfg.quality cfg.lossless = Except.ok r) → b = true ∧ e = "") ∧
        (∀ m, create_webp cfg.output_file cfg.input_folder fs cfg.delay
            cfg.quality cfg.lossless = Except.error m → b = false ∧ e = m)) ∧
      (cfg.format_type = "apng" →
        ((∃ r, create_apng cfg.output_file cfg.input_folder fs cfg.delay =
            Except.ok r) → b = true ∧ e = "") ∧
        (∀ m, create_apng cfg.output_file cfg.input_folder fs cfg.delay =
            Except.error m → b = false ∧ e = m)) := by
  unfold runThread
  by_cases hw : cfg.format_type = "webp"
  · have hna : cfg.format_type ≠ "apng" := by rw [hw]; decide
    rw [if_pos hw]
    cases hcw : create_webp cfg.output_file cfg.input_folder fs cfg.delay
        cfg.quality cfg.lossless with
    | ok r =>
      refine ⟨true, "", rfl, fun _ => ⟨fun _ => ⟨rfl, rfl⟩, fun m hm => ?_⟩,
        fun ha => absurd ha hna⟩
      cases hm
    | error m =>
      refine ⟨false, m, rfl, fun _ => ⟨fun hok => ?_, fun m' hm' => ?_⟩,
        fun ha => absurd ha hna⟩
      · obtain ⟨r, hr⟩ := hok
        cases hr
      · cases hm'
        exact ⟨rfl, rfl⟩
  · rw [if_neg hw]
    by_cases hap : cfg.format_type = "apng"
    · rw [if_pos hap]
      cases hca : create_apng cfg.output_file cfg.input_folder fs cfg.delay with
      | ok r =>
        refine ⟨true, "", rfl, fun hwe => absurd hwe hw,
          fun _ => ⟨fun _ => ⟨rfl, rfl⟩, fun m hm => ?_⟩⟩
        cases hm
      | error m =>
        refine ⟨false, m, rfl, fun hwe => absurd hwe hw,
          fun _ => ⟨fun hok => ?_, fun m' hm' => ?_⟩⟩
        · obtain ⟨r, hr⟩ := hok
          cases hr
        · cases hm'
          exact ⟨rfl, rfl⟩
    · rw [if_neg hap]
      exact ⟨true, "", rfl, fun hwe => absurd hwe hw, fun ha => absurd ha hap⟩

/-- Witness for C2 at a concrete webp thread over an empty folder: the single
emission reports the failure string of the raised `FileNotFoundError`. -/
theorem c2_run_emits_once_witness :
    runThread
        { output_file := "o.webp", input_folder := "input", format_type := "webp",
          delay := 41, quality := 80, lossless := false } [] =
      [(false, noPngError "input")] := by
  obtain ⟨b, e, hrun, hwebp, _⟩ := c2_run_emits_once
    { output_file := "o.webp", input_folder := "input", format_type := "webp",
      delay := 41, quality := 80, lossless := false } []
  obtain ⟨hb, he⟩ := (hwebp rfl).2 (noPngError "input") (by rfl)
  rw [hrun, hb, he]

/-- Inversion of a `convert_images` run that started a conversion thread:
every validation passed and the thread fields are as the code computes. -/
theorem convert_images_started_inv (s : UIState) (cfg : ThreadConfig)
    (h : convert_images s = ConvertResult.started cfg) :
    ∃ dir f, s.input_folder = some dir ∧ pyIntParse s.delay_text = some f ∧ 0 < f ∧
      cfg.output_file = pyStrip s.output_text ∧
      cfg.input_folder = dir ∧
      cfg.format_type = (if s.format_text = "WebP" then "webp" else "apng") ∧
      cfg.delay = 1000 / f.toNat ∧
      (s.format_text = "WebP" → pyEndsWith (pyStrip s.output_text) ".webp" = true) ∧
      (s.format_text ≠ "WebP" → pyEndsWith (pyStrip s.output_text) ".png" = true) ∧
      (s.compression_text = "Lossless Mode" → cfg.quality = 100 ∧ cfg.lossless = true) ∧
      (s.compression_text ≠ "Lossless Mode" →
        ∃ q, pyIntParse s.quality_text = some q ∧ 0 ≤ q ∧ q ≤ 100 ∧
          cfg.quality = q ∧ cfg.lossless = false) := by
  unfold convert_images at h
  split at h
  · cases h
  rename_i folder heq
  split at h
  · cases h
  rename_i f hparse
  split at h
  · cases h
  rename_i hfps
  split at h
  · cases h
  rename_i hext1
  split at h
  · cases h
  rename_i hext2
  split at h
  · -- lossy branch
    rename_i hlossy
    split at h
    · cases h
    rename_i q hq
    split at h
    · cases h
    rename_i hrange
    cases h
    refine ⟨folder, f, heq, hparse, not_le.mp hfps, rfl, rfl, rfl, rfl, ?_, ?_, ?_, ?_⟩
    · intro hfmt
      by_contra hc
      exact hext1 ⟨by simp [formatTypeOf, hfmt], by simpa using hc⟩
    · intro hfmt
      by_contra hc
      exact hext2 ⟨by simp [formatTypeOf, hfmt], by simpa using hc⟩
    · intro hcomp
      exact absurd hcomp hlossy
    · intro _
      exact ⟨q, hq, by omega, by omega, rfl, rfl⟩
  · -- lossless branch
    rename_i hll
    cases h
    have hcomp : s.compression_text = "Lossless Mode" := not_not.mp hll
    refine ⟨folder, f, heq, hparse, not_le.mp hfps, rfl, rfl, rfl, rfl, ?_, ?_, ?_, ?_⟩
    · intro hfmt
      by_contra hc
      exact hext1 ⟨by simp [formatTypeOf, hfmt], by simpa using hc⟩
    · intro hfmt
      by_contra hc
      exact hext2 ⟨by simp [formatTypeOf, hfmt], by simpa using hc⟩
    · intro _
      exact ⟨rfl, rfl⟩
    · intro hne
      exact absurd hcomp hne

/-- Inversion of a `convert_images` run that showed an error toast: the
message identifies the check that failed, and the earlier checks passed. -/
theorem convert_images_toast_inv (s : UIState) (m : String)
    (h : convert_images s = ConvertResult.toastError m) :
    (m = folderMsg ∧ s.input_folder = none) ∨
    (m = fpsMsg ∧ s.input_folder ≠ none ∧
      (pyIntParse s.delay_text = none ∨
        ∃ f, pyIntParse s.delay_text = some f ∧ f ≤ 0)) ∨
    (m = webpExtMsg ∧ s.input_folder ≠ none ∧
      (∃ f, pyIntParse s.delay_text = some f ∧ 0 < f) ∧
      s.format_text = "WebP" ∧ pyEndsWith (pyStrip s.output_text) ".webp" = false) ∨
    (m = apngExtMsg ∧ s.input_folder ≠ none ∧
      (∃ f, pyIntParse s.delay_text = some f ∧ 0 < f) ∧
      s.format_text ≠ "WebP" ∧ pyEndsWith (pyStrip s.output_text) ".png" = false) ∨
    (m = qualityMsg ∧ s.input_folder ≠ none ∧
      (∃ f, pyIntParse s.delay_text = some f ∧ 0 < f) ∧
      s.compression_text ≠ "Lossless Mode" ∧
      (pyIntParse s.quality_text = none ∨
        ∃ q, pyIntParse s.quality_text = some q ∧ (q < 0 ∨ 100 < q))) := by
  unfold convert_images at h
  split at h
  · rename_i heq
    cases h
    exact Or.inl ⟨rfl, heq⟩
  rename_i folder heq
  have hsome : s.input_folder ≠ none := by rw [heq]; exact Option.some_ne_none folder
  split at h
  · rename_i hparse
    cases h
    exact Or.inr (Or.inl ⟨rfl, hsome, Or.inl hparse⟩)
  rename_i f hparse
  split at h
  · rename_i hfps
    cases h
    exact Or.inr (Or.inl ⟨rfl, hsome, Or.inr ⟨f, hparse, hfps⟩⟩)
  rename_i hfps
  have hfpos : (0 : Int) < f := not_le.mp hfps
  split at h
  · rename_i hcond
    cases h
    obtain ⟨hfmt', hends⟩ := hcond
    have hfmt : s.format_text = "WebP" := by
      by_contra hc
      rw [formatTypeOf, if_neg hc] at hfmt'
      exact absurd hfmt' (by decide)
    exact Or.inr (Or.inr (Or.inl ⟨rfl, hsome, ⟨f, hparse, hfpos⟩, hfmt, hends⟩))
  rename_i hext1
  split at h
  · rename_i hcond
    cases h
    obtain ⟨hfmt', hends⟩ := hcond
    have hfmt : s.format_text ≠ "WebP" := by
      intro hc
      rw [formatTypeOf, if_pos hc] at hfmt'
      exact absurd hfmt' (by decide)
    exact Or.inr (Or.inr (Or.inr (Or.inl ⟨rfl, hsome, ⟨f, hparse, hfpos⟩, hfmt, hends⟩)))
  rename_i hext2
  split at h
  · rename_i hlossy
    split at h
    · rename_i hq
      cases h
      exact Or.inr (Or.inr (Or.inr (Or.inr
        ⟨rfl, hsome, ⟨f, hparse, hfpos⟩, hlossy, Or.inl hq⟩)))
    rename_i q hq
    split at h
    · rename_i hrange
      cases h
      exact Or.inr (Or.inr (Or.inr (Or.inr
        ⟨rfl, hsome, ⟨f, hparse, hfpos⟩, hlossy, Or.inr ⟨q, hq, hrange⟩⟩)))
    · cases h
  · cases h

/-! ### C3 -/

/-- C3: when WebP is selected and the stripped output filename does not end
with `.webp` (or APNG is selected and it does not end with `.png`), an error
toast is shown and no conversion thread is started; when the extension
matches the selected format, the extension check does not reject the input. -/
theorem c3_extension_check (s : UIState) :
    (s.format_text = "WebP" → pyEndsWith (pyStrip s.output_text) ".webp" = false →
      ∃ m, convert_images s = ConvertResult.toastError m) ∧
    (s.format_text ≠ "WebP" → pyEndsWith (pyStrip s.output_text) ".png" = false →
      ∃ m, convert_images s = ConvertResult.toastError m) ∧
    (s.format_text = "WebP" → pyEndsWith (pyStrip s.output_text) ".webp" = true →
      convert_images s ≠ ConvertResult.toastError webpExtMsg) ∧
    (s.format_text ≠ "WebP" → pyEndsWith (pyStrip s.output_text) ".png" = true →
      convert_images s ≠ ConvertResult.toastError apngExtMsg) := by
  refine ⟨?_, ?_, ?_, ?_⟩
  · intro hfmt hends
    cases hres : convert_images s with
    | toastError m => exact ⟨m, rfl⟩
    | started cfg =>
      obtain ⟨dir, f, _, _, _, _, _, _, _, hw, _, _, _⟩ :=
        convert_images_started_inv s cfg hres
      rw [hw hfmt] at hends
      cases hends
  · intro hfmt hends
    cases hres : convert_images s with
    | toastError m => exact ⟨m, rfl⟩
    | started cfg =>
      obtain ⟨dir, f, _, _, _, _, _, _, _, _, ha, _, _⟩ :=
        convert_images_started_inv s cfg hres
      rw [ha hfmt] at hends
      cases hends
  · intro hfmt hends hres
    rcases convert_images_toast_inv s webpExtMsg hres with
      ⟨hm, -⟩ | ⟨hm, -, -⟩ | ⟨-, -, -, -, hf⟩ | ⟨hm, -, -, -, -⟩ | ⟨hm, -, -, -, -⟩
    · exact absurd hm (by decide)
    · exact absurd hm (by decide)
    · rw [hends] at hf; cases hf
    · exact absurd hm (by decide)
    · exact absurd hm (by decide)
  · intro hfmt hends hres
    rcases convert_images_toast_inv s apngExtMsg hres with
      ⟨hm, -⟩ | ⟨hm, -, -⟩ | ⟨hm, -, -, -, -⟩ | ⟨-, -, -, -, hf⟩ | ⟨hm, -, -, -, -⟩
    · exact absurd hm (by decide)
    · exact absurd hm (by decide)
    · exact absurd hm (by decide)
    · rw [hends] at hf; cases hf
    · exact absurd hm (by decide)

/-- Witness for C3: a `.gif` name under WebP is rejected with a toast, and a
matching `.webp` name is not rejected by the extension check. -/
theorem c3_extension_check_witness :
    (∃ m, convert_images
        { input_folder := some "input", output_text := "out.gif",
          format_text := "WebP", compression_text := "Lossy Mode",
          delay_text := "24", quality_text := "90" } =
      ConvertResult.toastError m) ∧
    convert_images
        { input_folder := some "input", output_text := "output.webp",
          format_text := "WebP", compression_text := "Lossy Mode",
          delay_text := "24", quality_text := "90" } ≠
      ConvertResult.toastError webpExtMsg :=
  ⟨(c3_extension_check _).1 rfl (by decide),
   (c3_extension_check _).2.2.1 rfl (by decide)⟩

/-! ### C4 -/

/-- C4: in lossy mode a conversion is started only if the quality text parses
as an integer in `[0, 100]`, and that integer is the thread quality; any
non-parsing or out-of-range quality text yields an error toast and no
thread. -/
theorem c4_quality_validation (s : UIState)
    (h : s.compression_text ≠ "Lossless Mode") :
    (∀ cfg, convert_images s = ConvertResult.started cfg →
      ∃ q, pyIntParse s.quality_text = some q ∧ 0 ≤ q ∧ q ≤ 100 ∧
        cfg.quality = q) ∧
    ((pyIntParse s.quality_text = none ∨
        ∃ q, pyIntParse s.quality_text = some q ∧ (q < 0 ∨ 100 < q)) →
      (∃ m, convert_images s = ConvertResult.toastError m) ∧
      ∀ cfg, convert_images s ≠ ConvertResult.started cfg) := by
  have hstart : ∀ cfg, convert_images s = ConvertResult.started cfg →
      ∃ q, pyIntParse s.quality_text = some q ∧ 0 ≤ q ∧ q ≤ 100 ∧
        cfg.quality = q := by
    intro cfg hcfg
    obtain ⟨dir, f, _, _, _, _, _, _, _, _, _, _, hq⟩ :=
      convert_images_started_inv s cfg hcfg
    obtain ⟨q, h1, h2, h3, h4, -⟩ := hq h
    exact ⟨q, h1, h2, h3, h4⟩
  refine ⟨hstart, fun hbad => ?_⟩
  have hns : ∀ cfg, convert_images s ≠ ConvertResult.started cfg := by
    intro cfg hcfg
    obtain ⟨q, h1, h2, h3, -⟩ := hstart cfg hcfg
    rcases hbad with hn | ⟨q', hq', hout⟩
    · rw [hn] at h1; cases h1
    · rw [hq'] at h1; cases h1; omega
  refine ⟨?_, hns⟩
  cases hres : convert_images s with
  | toastError m => exact ⟨m, rfl⟩
  | started cfg => exact absurd rfl (hres ▸ hns cfg)

/-- Witness for C4: lossy mode with a non-numeric quality text shows a toast
and starts nothing. -/
theorem c4_quality_validation_witness :
    (∃ m, convert_images
        { input_folder := some "input", output_text := "output.webp",
          format_text := "WebP", compression_text := "Lossy Mode",
          delay_text := "24", quality_text := "abc" } =
      ConvertResult.toastError m) ∧
    ∀ cfg, convert_images
        { input_folder := some "input", output_text := "output.webp",
          format_text := "WebP", compression_text := "Lossy Mode",
          delay_text := "24", quality_text := "abc" } ≠
      ConvertResult.started cfg :=
  (c4_quality_validation _ (by decide)).2 (Or.inl (by rfl))

/-! ### C5 -/

/-- C5: with a folder selected, the frame-rate field is rejected (with the
frame-rate toast) exactly when it fails to parse as a positive integer, and
every started thread carries the delay `int(1000 / fps)`, i.e. `1000 / fps`
truncated. -/
theorem c5_framerate (s : UIState) (dir : String)
    (hf : s.input_folder = some dir) :
    (convert_images s = ConvertResult.toastError fpsMsg ↔
      pyIntParse s.delay_text = none ∨
        ∃ f, pyIntParse s.delay_text = some f ∧ f ≤ 0) ∧
    (∀ cfg, convert_images s = ConvertResult.started cfg →
      ∃ f, pyIntParse s.delay_text = some f ∧ 0 < f ∧
        cfg.delay = 1000 / f.toNat) := by
  constructor
  · constructor
    · intro hres
      rcases convert_images_toast_inv s fpsMsg hres with
        ⟨hm, -⟩ | ⟨-, -, hbad⟩ | ⟨hm, -, -, -, -⟩ | ⟨hm, -, -, -, -⟩ | ⟨hm, -, -, -, -⟩
      · exact absurd hm (by decide)
      · exact hbad
      · exact absurd hm (by decide)
      · exact absurd hm (by decide)
      · exact absurd hm (by decide)
    · intro hbad
      cases hres : convert_images s with
      | started cfg =>
        obtain ⟨dir', f, _, hp, hpos, -⟩ := convert_images_started_inv s cfg hres
        rcases hbad with hn | ⟨f', hf', hle⟩
        · rw [hn] at hp; cases hp
        · rw [hp] at hf'; cases hf'; omega
      | toastError m =>
        rcases convert_images_toast_inv s m hres with
          ⟨-, hnone⟩ | ⟨hm, -, -⟩ | ⟨-, -, ⟨f, hp, hpos⟩, -, -⟩ |
          ⟨-, -, ⟨f, hp, hpos⟩, -, -⟩ | ⟨-, -, ⟨f, hp, hpos⟩, -, -⟩
        · rw [hf] at hnone; cases hnone
        · rw [hm]
        · rcases hbad with hn | ⟨f', hf', hle⟩
          · rw [hn] at hp; cases hp
          · rw [hp] at hf'; cases hf'; omega
        · rcases hbad with hn | ⟨f', hf', hle⟩
          · rw [hn] at hp; cases hp
          · rw [hp] at hf'; cases hf'; omega
        · rcases hbad with hn | ⟨f', hf', hle⟩
          · rw [hn] at hp; cases hp
          · rw [hp] at hf'; cases hf'; omega
  · intro cfg hres
    obtain ⟨dir', f, _, hp, hpos, _, _, _, hdelay, -⟩ :=
      convert_images_started_inv s cfg hres
    exact ⟨f, hp, hpos, hdelay⟩

/-- Witness for C5: frame rate `"0"` is rejected with the frame-rate toast;
frame rate `"24"` starts a thread whose delay is `1000 / 24 = 41` ms. -/
theorem c5_framerate_witness :
    convert_images
        { input_folder := some "input", output_text := "output.webp",
          format_text := "WebP", compression_text := "Lossy Mode",
          delay_text := "0", quality_text := "90" } =
      ConvertResult.toastError fpsMsg ∧
    ∃ f, pyIntParse "24" = some f ∧ 0 < f ∧
      (ThreadConfig.mk "output.webp" "input" "webp" 41 90 false).delay =
        1000 / f.toNat :=
  ⟨((c5_framerate _ "input" rfl).1).mpr (Or.inr ⟨0, rfl, by decide⟩),
   (c5_framerate
      { input_folder := some "input", output_text := "output.webp",
        format_text := "WebP", compression_text := "Lossy Mode",
        delay_text := "24", quality_text := "90" } "input" rfl).2 _ (by rfl)⟩

/-! ### C9 -/

/-- C9: in lossless mode `convert_images` never reads or validates the
quality field: whatever the quality text holds, once the other checks pass
the conversion starts with quality forced to `100`. -/
theorem c9_lossless_skips_quality (s : UIState) (dir : String) (f : Int)
    (hl : s.compression_text = "Lossless Mode")
    (hdir : s.input_folder = some dir)
    (hp : pyIntParse s.delay_text = some f) (hpos : 0 < f)
    (hw : s.format_text = "WebP" → pyEndsWith (pyStrip s.output_text) ".webp" = true)
    (ha : s.format_text ≠ "WebP" → pyEndsWith (pyStrip s.output_text) ".png" = true) :
    ∃ cfg, convert_images s = ConvertResult.started cfg ∧
      cfg.quality = 100 ∧ cfg.lossless = true := by
  cases hres : convert_images s with
  | started cfg =>
    obtain ⟨dir', f', _, _, _, _, _, _, _, _, _, hll, _⟩ :=
      convert_images_started_inv s cfg hres
    exact ⟨cfg, rfl, hll hl⟩
  | toastError m =>
    exfalso
    rcases convert_images_toast_inv s m hres with
      ⟨-, hnone⟩ | ⟨-, -, hbad⟩ | ⟨-, -, -, hfmt, hends⟩ |
      ⟨-, -, -, hfmt, hends⟩ | ⟨-, -, -, hcomp, -⟩
    · rw [hdir] at hnone; cases hnone
    · rcases hbad with hn | ⟨f', hf', hle⟩
      · rw [hn] at hp; cases hp
      · rw [hp] at hf'; cases hf'; omega
    · rw [hw hfmt] at hends; cases hends
    · rw [ha hfmt] at hends; cases hends
    · exact hcomp hl

/-- Witness for C9: lossless mode with quality text `"not a number"` still
starts a thread with quality `100`. -/
theorem c9_lossless_skips_quality_witness :
    ∃ cfg, convert_images
        { input_folder := some "input", output_text := "output.webp",
          format_text := "WebP", compression_text := "Lossless Mode",
          delay_text := "24", quality_text := "not a number" } =
      ConvertResult.started cfg ∧ cfg.quality = 100 ∧ cfg.lossless = true :=
  c9_lossless_skips_quality _ "input" 24 rfl rfl (by rfl) (by decide)
    (fun _ => by decide) (fun hne => absurd rfl hne)

end AnimatedWebP
